import Mathlib

/-
Verification of the traffic-control logic of otgen's `run` command
(src/cmd/run.go), as a shallow embedding in Lean.

Modelling conventions:
* Machine integers of the Go code (int32 packet counts, int64 rates,
  int64 frame counters, int64 `time.Duration` nanoseconds) are modelled
  as `Nat`: every quantity in the OTG data model is non-negative and far
  below any overflow bound (a flow's packet count fits in 32 bits, so
  the nanosecond ETA fits in 63 bits).
* The timeout comparison `float32(trafficETA)*xeta < float32(time.Since(start))`
  is modelled with `float32` rounding made explicit: `roundF32` rounds a
  rational to the nearest `float32` value (24-bit significand, ties to
  even), the two int64 nanosecond durations pass through it, and the
  product with the `float32` multiplier `xeta` is rounded again, as IEEE
  multiplication is correctly rounded. `time.Since(start)` is a single
  `elapsed` parameter (nanoseconds) per policy evaluation.
* The warning emitted by `log.Warnf` is modelled as an explicit list of
  signals returned next to the boolean: `none` for the port-mode warning
  (which names no flow), `some name` for the flow-mode warning naming
  the flow record that triggered it.
* The orchestrator `runTraffic` and the command entry point are modelled
  as trace generators over an abstract event alphabet; the unbounded
  poll loop is driven by a finite schedule of fetched snapshots, and the
  trace is truncated when the schedule is exhausted while traffic still
  runs.
-/

namespace Otgen

/-- A flow of the configuration, as read by `calculateTrafficTargets`:
`f.Duration().FixedPackets().Packets()` and `f.Rate().Pps()`. -/
structure Flow where
  fixedPackets : Nat
  ratePps : Nat
deriving DecidableEq, Repr

/-- Transmit state of a flow metrics record (`gosnappi.FlowMetricTransmit`). -/
inductive FlowTransmit where
  | started
  | stopped
  | paused
deriving DecidableEq, Repr

/-- One port metrics record, exposing its cumulative `FramesTx` counter. -/
structure PortMetric where
  framesTx : Nat
deriving DecidableEq, Repr

/-- One flow metrics record, exposing its name and transmit state. -/
structure FlowMetric where
  name : String
  transmit : FlowTransmit
deriving DecidableEq, Repr

/-- A metrics snapshot (`gosnappi.MetricsResponse`): port records and flow
records; the mode selector decides which list is consulted. -/
structure MetricsResponse where
  portMetrics : List PortMetric
  flowMetrics : List FlowMetric
deriving DecidableEq, Repr

/-- Nanoseconds per second: `time.Second` as a `time.Duration`. -/
def nsPerSecond : Nat := 1000000000

/-- Loop body of `calculateTrafficTargets` (run.go:202-213), carrying the
accumulators `pktCountTotal`, `flowETA` and `trafficETA` exactly as the Go
loop does (`flowETA` is declared outside the loop, so a rate-0 flow leaves
it at its previous value). -/
def calcLoop : List Flow → Nat → Nat → Nat → Nat × Nat
  | [], pktCountTotal, _flowETA, trafficETA => (pktCountTotal, trafficETA)
  | f :: rest, pktCountTotal, flowETA, trafficETA =>
      let pktCountFlow := f.fixedPackets
      let pktCountTotal' := pktCountTotal + pktCountFlow
      let flowETA' :=
        if 0 < f.ratePps then pktCountFlow / f.ratePps * nsPerSecond else flowETA
      let trafficETA' := if trafficETA < flowETA' then flowETA' else trafficETA
      calcLoop rest pktCountTotal' flowETA' trafficETA'

/-- `calculateTrafficTargets` (run.go:197-215): total packet count over all
flows and the nanosecond ETA of the longest rate-bearing flow. -/
def calculateTrafficTargets (config : List Flow) : Nat × Nat :=
  calcLoop config 0 0 0

/-- `isTrafficRunning` (run.go:217-240): target-only completion policy.
Port mode compares the summed `FramesTx` against the target; flow mode
scans for a record whose transmit state is not STOPPED; any other mode
selector leaves the initial `false`. -/
def isTrafficRunning (otgMetrics : String) (mr : MetricsResponse)
    (targetTx : Nat) : Bool :=
  if otgMetrics = "port" then
    let total_tx := mr.portMetrics.foldl (fun total pm => total + pm.framesTx) 0
    if total_tx < targetTx then true else false
  else if otgMetrics = "flow" then
    mr.flowMetrics.foldl
      (fun trafficRunning fm =>
        if trafficRunning = false ∧ fm.transmit ≠ FlowTransmit.stopped then true
        else trafficRunning)
      false
  else
    false

/-- Round a rational to an integer, half to even (the IEEE 754
round-to-nearest tie rule). -/
def roundHalfEven (x : ℚ) : ℤ :=
  if x - ⌊x⌋ < 1/2 then ⌊x⌋
  else if (1/2 : ℚ) < x - ⌊x⌋ then ⌊x⌋ + 1
  else if ⌊x⌋ % 2 = 0 then ⌊x⌋ else ⌊x⌋ + 1

/-- The exact value of a quantity after rounding to `float32`: round to
nearest even at a 24-bit significand. The exponent range of `float32` is
not modelled: the durations here are below 2^63 ns, far under the
overflow threshold 2^128, and with an ordinary positive `xeta` no
quantity of the program reaches the subnormal range below 2^-126. -/
def roundF32 (q : ℚ) : ℚ :=
  if q = 0 then 0
  else
    let e : ℤ := Int.log 2 |q| - 23
    let n : ℤ := roundHalfEven (|q| * (2:ℚ) ^ (-e))
    (if q < 0 then (-1:ℚ) else 1) * (n : ℚ) * (2:ℚ) ^ e

/- The timeout comparison `float32(trafficETA)*xeta < float32(time.Since(start))`
(run.go:254 and run.go:264) is embedded below as
`roundF32 (roundF32 trafficETA * xeta) < roundF32 elapsed`: both int64
nanosecond durations are converted to `float32`, the product with the
`float32` flag `xeta` is rounded again (IEEE multiplication is correctly
rounded), and the `float32` comparison of finite values is the exact
comparison of the represented rationals. The parameter `xeta` stands for
the exact value of the program's `float32` flag; theorems quantify over
all of `ℚ`, which contains every such value. -/

/-- Flow-mode scan of `isTrafficRunningWithETA` (run.go:260-269): per
record, first the not-STOPPED check may set `trafficRunning`, then the
timeout comparison; on timeout the scan warns (naming the record), forces
`false` and breaks. -/
def flowScanETA (xeta : ℚ) (trafficETA elapsed : Nat) :
    Bool → List FlowMetric → Bool × List (Option String)
  | trafficRunning, [] => (trafficRunning, [])
  | trafficRunning, fm :: rest =>
      let trafficRunning' :=
        if trafficRunning = false ∧ fm.transmit ≠ FlowTransmit.stopped then true
        else trafficRunning
      if roundF32 (roundF32 (trafficETA : ℚ) * xeta) < roundF32 (elapsed : ℚ) then
        (false, [some fm.name])
      else
        flowScanETA xeta trafficETA elapsed trafficRunning' rest

/-- `isTrafficRunningWithETA` (run.go:242-275): target-or-timeout
completion policy. Returns the running flag together with the warning
signals emitted during the call. -/
def isTrafficRunningWithETA (otgMetrics : String) (xeta : ℚ)
    (mr : MetricsResponse) (targetTx trafficETA elapsed : Nat) :
    Bool × List (Option String) :=
  if otgMetrics = "port" then
    let total_tx := mr.portMetrics.foldl (fun total pm => total + pm.framesTx) 0
    let trafficRunning := if total_tx < targetTx then true else false
    if roundF32 (roundF32 (trafficETA : ℚ) * xeta) < roundF32 (elapsed : ℚ) then (false, [none])
    else (trafficRunning, [])
  else if otgMetrics = "flow" then
    flowScanETA xeta trafficETA elapsed false mr.flowMetrics
  else
    (false, [])

/-- Policy selection of the orchestrator (run.go:170-181): with
`xeta > 0` the closure calls `isTrafficRunningWithETA`, otherwise
`isTrafficRunning` (which consults no clock and warns never). -/
def trafficRunningPolicy (otgMetrics : String) (xeta : ℚ)
    (targetTx trafficETA : Nat) (mr : MetricsResponse) (elapsed : Nat) :
    Bool × List (Option String) :=
  if 0 < xeta then
    isTrafficRunningWithETA otgMetrics xeta mr targetTx trafficETA elapsed
  else
    (isTrafficRunning otgMetrics mr targetTx, [])

/-- Observable steps of the `run` command: reading the configuration input
(initOTG, run.go:101-111) and the remote API calls and local target
computation of `runTraffic` (run.go:135-195). -/
inductive Event where
  | configRead
  | setConfig
  | startTransmit
  | computeTargets
  | getMetrics
  | stopTransmit
deriving DecidableEq, Repr

/-- The poll loop (run.go:183-187) driven by a finite schedule of
subsequent (snapshot, elapsed) pairs: while the policy reports running,
fetch the next snapshot. Returns the emitted events, the warning signals
collected from policy evaluations, and whether the loop terminated (as
opposed to the schedule running out while traffic still runs). -/
def pollLoop (policy : MetricsResponse → Nat → Bool × List (Option String)) :
    MetricsResponse → Nat → List (MetricsResponse × Nat) →
      List Event × List (Option String) × Bool
  | mr, elapsed, [] =>
      let r := policy mr elapsed
      if r.1 then ([], r.2, false) else ([], r.2, true)
  | mr, elapsed, p :: rest =>
      let r := policy mr elapsed
      if r.1 then
        let next := pollLoop policy p.1 p.2 rest
        (Event.getMetrics :: next.1, r.2 ++ next.2.1, next.2.2)
      else ([], r.2, true)

/-- `runTraffic` (run.go:135-195) as an event trace: apply config, send
START, compute targets, fetch the first snapshot, poll until the policy
reports not-running, then send STOP (only reached if the loop ends within
the given schedule). -/
def runTraffic (otgMetrics : String) (xeta : ℚ) (config : List Flow)
    (mr0 : MetricsResponse) (t0 : Nat)
    (polls : List (MetricsResponse × Nat)) : List Event :=
  let targets := calculateTrafficTargets config
  let lp := pollLoop (trafficRunningPolicy otgMetrics xeta targets.1 targets.2)
    mr0 t0 polls
  Event.setConfig :: Event.startTransmit :: Event.computeTargets ::
    Event.getMetrics :: (lp.1 ++ (if lp.2.2 then [Event.stopTransmit] else []))

/-- The `run` command body (run.go:57-72): validate the metrics mode
first, then parse the pull interval, then `initOTG` (which reads the
configuration input and may fail parsing it), then `runTraffic`. Returns
the emitted events and whether a fatal exit occurred. -/
def runCmdRun (otgMetrics : String) (intervalOk : Bool) (cfgOk : Bool)
    (xeta : ℚ) (config : List Flow) (mr0 : MetricsResponse) (t0 : Nat)
    (polls : List (MetricsResponse × Nat)) : List Event × Bool :=
  if otgMetrics = "port" ∨ otgMetrics = "flow" then
    if intervalOk then
      if cfgOk then
        (Event.configRead :: runTraffic otgMetrics xeta config mr0 t0 polls,
          false)
      else ([Event.configRead], true)
    else ([], true)
  else ([], true)

/-- Index of the first occurrence of an event in a trace. -/
def firstIdx (e : Event) : List Event → Option Nat
  | [] => none
  | x :: xs => if x = e then some 0 else (firstIdx e xs).map (· + 1)

/-- Number of occurrences of an event in a trace. -/
def countE (e : Event) : List Event → Nat
  | [] => 0
  | x :: xs => (if x = e then 1 else 0) + countE e xs

/-- Whether the first occurrence of `a` lies strictly before the first
occurrence of `b` in the trace. -/
def occursBefore (a b : Event) (tr : List Event) : Bool :=
  match firstIdx a tr, firstIdx b tr with
  | some i, some j => decide (i < j)
  | _, _ => false

/-- Specification-side per-flow ETA (spec 4.1): `floor(packet_count /
rate)` seconds, expressed in nanoseconds; meaningful for rate-bearing
flows. -/
def flowETAnsSpec (f : Flow) : Nat :=
  f.fixedPackets / f.ratePps * nsPerSecond

/-- Specification-side traffic ETA (spec 4.1): maximum of the per-flow
ETAs across flows with rate > 0, and 0 when no flow has rate > 0. -/
def trafficETAnsSpec (config : List Flow) : Nat :=
  ((config.filter (fun f => 0 < f.ratePps)).map flowETAnsSpec).foldr max 0

end Otgen

namespace Otgen

/-- A Go-style running maximum step equals `max`. -/
theorem ite_lt_eq_max (a b : ℕ) : (if a < b then b else a) = max a b := by
  rcases Nat.lt_or_ge a b with h | h
  · rw [if_pos h, Nat.max_eq_right (Nat.le_of_lt h)]
  · rw [if_neg (Nat.not_lt.mpr h), Nat.max_eq_left h]

theorem trafficETAnsSpec_cons_pos (f : Flow) (rest : List Flow)
    (hr : 0 < f.ratePps) :
    trafficETAnsSpec (f :: rest) = max (flowETAnsSpec f) (trafficETAnsSpec rest) := by
  simp [trafficETAnsSpec, List.filter_cons, hr]

theorem trafficETAnsSpec_cons_zero (f : Flow) (rest : List Flow)
    (hr : ¬ 0 < f.ratePps) :
    trafficETAnsSpec (f :: rest) = trafficETAnsSpec rest := by
  simp [trafficETAnsSpec, List.filter_cons, hr]

/-- Loop invariant of `calculateTrafficTargets`: provided the carried
`flowETA` never exceeds the carried `trafficETA` (true initially, both 0,
and preserved), the loop returns the accumulated packet total and the
running maximum of the rate-bearing flows' ETAs. -/
theorem calcLoop_eq (flows : List Flow) : ∀ tot fe te : ℕ, fe ≤ te →
    calcLoop flows tot fe te
      = (tot + (flows.map Flow.fixedPackets).sum, max te (trafficETAnsSpec flows)) := by
  induction flows with
  | nil =>
      intro tot fe te _h
      simp [calcLoop, trafficETAnsSpec]
  | cons f rest ih =>
      intro tot fe te h
      by_cases hr : 0 < f.ratePps
      · have step := ih (tot + f.fixedPackets) (flowETAnsSpec f)
          (max te (flowETAnsSpec f)) (le_max_right _ _)
        simp only [calcLoop, if_pos hr, ite_lt_eq_max]
        rw [show f.fixedPackets / f.ratePps * nsPerSecond = flowETAnsSpec f from rfl,
          step, trafficETAnsSpec_cons_pos f rest hr]
        refine Prod.ext ?_ ?_
        · simp [Nat.add_assoc]
        · simp [Nat.max_assoc]
      · have hfe : fe ≤ te := h
        have step := ih (tot + f.fixedPackets) fe te hfe
        simp only [calcLoop, if_neg hr, ite_lt_eq_max]
        rw [Nat.max_eq_left hfe, step, trafficETAnsSpec_cons_zero f rest hr]
        refine Prod.ext ?_ ?_
        · simp [Nat.add_assoc]
        · simp

/-- C2: `calculateTrafficTargets` returns the sum of the flows' fixed
packet counts together with the maximum, over the flows with rate > 0, of
`floor(packet_count / rate)` seconds (0 when no flow has rate > 0); in
particular flows [(1000,100),(500,50)] give target 1500 and ETA 10 s, and
a configuration whose flows all have rate 0 gives ETA 0 with target still
the sum. -/
theorem calculateTrafficTargets_correct (config : List Flow) :
    calculateTrafficTargets config
      = ((config.map Flow.fixedPackets).sum, trafficETAnsSpec config)
    ∧ calculateTrafficTargets [⟨1000, 100⟩, ⟨500, 50⟩] = (1500, 10 * nsPerSecond)
    ∧ ((∀ f ∈ config, f.ratePps = 0) →
        calculateTrafficTargets config = ((config.map Flow.fixedPackets).sum, 0)) := by
  have main : ∀ cfg : List Flow, calculateTrafficTargets cfg
      = ((cfg.map Flow.fixedPackets).sum, trafficETAnsSpec cfg) := by
    intro cfg
    rw [calculateTrafficTargets, calcLoop_eq cfg 0 0 0 (le_refl 0)]
    simp
  refine ⟨main config, by decide, ?_⟩
  intro hall
  rw [main config]
  have : trafficETAnsSpec config = 0 := by
    have hfil : config.filter (fun f => 0 < f.ratePps) = [] := by
      rw [List.filter_eq_nil_iff]
      intro f hf
      simp [hall f hf]
    rw [trafficETAnsSpec, hfil]
    simp
  rw [this]

end Otgen

namespace Otgen

/-- The port-metrics summation loop accumulates the mapped sum. -/
theorem foldl_framesTx (l : List PortMetric) (n : ℕ) :
    l.foldl (fun total pm => total + pm.framesTx) n
      = n + (l.map PortMetric.framesTx).sum := by
  induction l generalizing n with
  | nil => simp
  | cons pm rest ih => simp [ih, Nat.add_assoc]

/-- C6: in port mode the target-only policy reports running exactly while
the summed per-port `FramesTx` counters are strictly below the target;
once the sum reaches the target it reports not running. -/
theorem port_mode_running_iff (mr : MetricsResponse) (targetTx : ℕ) :
    isTrafficRunning "port" mr targetTx = true
      ↔ (mr.portMetrics.map PortMetric.framesTx).sum < targetTx := by
  rw [isTrafficRunning]
  simp only [if_pos rfl, foldl_framesTx, Nat.zero_add]
  by_cases h : (mr.portMetrics.map PortMetric.framesTx).sum < targetTx <;> simp [h]

/-- The flow-metrics scan of `isTrafficRunning` computes the disjunction
of its seed with "some record's transmit state is not STOPPED". -/
theorem foldl_flowRunning (l : List FlowMetric) (b : Bool) :
    (l.foldl
      (fun trafficRunning fm =>
        if trafficRunning = false ∧ fm.transmit ≠ FlowTransmit.stopped then true
        else trafficRunning) b) = true
      ↔ b = true ∨ ∃ fm ∈ l, fm.transmit ≠ FlowTransmit.stopped := by
  induction l generalizing b with
  | nil => simp
  | cons fm rest ih =>
      rw [List.foldl_cons]
      have hstep : (if b = false ∧ fm.transmit ≠ FlowTransmit.stopped then true else b)
          = (b || decide (fm.transmit ≠ FlowTransmit.stopped)) := by
        by_cases hb : b <;> by_cases ht : fm.transmit = FlowTransmit.stopped <;>
          simp [hb, ht]
      rw [hstep, ih]
      by_cases hb : b <;> by_cases ht : fm.transmit = FlowTransmit.stopped <;>
        simp [hb, ht]

/-- C7: in flow mode the target-only policy reports running exactly when
some flow record's transmit state is not STOPPED; when every record is
STOPPED (in particular for an empty snapshot) it reports not running. -/
theorem flow_mode_running_iff (mr : MetricsResponse) (targetTx : ℕ) :
    (isTrafficRunning "flow" mr targetTx = true
      ↔ ∃ fm ∈ mr.flowMetrics, fm.transmit ≠ FlowTransmit.stopped)
    ∧ ((∀ fm ∈ mr.flowMetrics, fm.transmit = FlowTransmit.stopped) →
        isTrafficRunning "flow" mr targetTx = false) := by
  have hiff : isTrafficRunning "flow" mr targetTx = true
      ↔ ∃ fm ∈ mr.flowMetrics, fm.transmit ≠ FlowTransmit.stopped := by
    rw [isTrafficRunning]
    simp only [String.reduceEq, if_neg, if_pos rfl, reduceIte]
    rw [foldl_flowRunning]
    simp
  refine ⟨hiff, ?_⟩
  intro hall
  rw [Bool.eq_false_iff]
  intro hrun
  rcases hiff.mp hrun with ⟨fm, hmem, hne⟩
  exact hne (hall fm hmem)

/-- C9: both completion-policy functions are deterministic: equal
snapshots and equal elapsed times give equal results. -/
theorem completion_policy_deterministic (otgMetrics : String) (xeta : ℚ)
    (mr mr' : MetricsResponse) (targetTx trafficETA elapsed elapsed' : ℕ)
    (hmr : mr = mr') (ht : elapsed = elapsed') :
    isTrafficRunning otgMetrics mr targetTx = isTrafficRunning otgMetrics mr' targetTx
    ∧ isTrafficRunningWithETA otgMetrics xeta mr targetTx trafficETA elapsed
        = isTrafficRunningWithETA otgMetrics xeta mr' targetTx trafficETA elapsed' := by
  subst hmr
  subst ht
  exact ⟨rfl, rfl⟩

/-- C9 witness at a concrete snapshot, target, mode and elapsed time. -/
theorem completion_policy_deterministic_witness :
    isTrafficRunning "port" ⟨[⟨5⟩], []⟩ 9 = isTrafficRunning "port" ⟨[⟨5⟩], []⟩ 9
    ∧ isTrafficRunningWithETA "port" 2 ⟨[⟨5⟩], []⟩ 9 7 3
        = isTrafficRunningWithETA "port" 2 ⟨[⟨5⟩], []⟩ 9 7 3 :=
  completion_policy_deterministic "port" 2 ⟨[⟨5⟩], []⟩ ⟨[⟨5⟩], []⟩ 9 7 3 3 rfl rfl

/-- C5: with `xeta ≤ 0` the orchestrator's completion check is the plain
`isTrafficRunning` condition: it never consults the elapsed time (any two
evaluation times agree) and never emits a forced-stop warning. -/
theorem target_only_policy_ignores_time (otgMetrics : String) (xeta : ℚ)
    (targetTx trafficETA : ℕ) (mr : MetricsResponse) (elapsed elapsed' : ℕ)
    (hx : xeta ≤ 0) :
    trafficRunningPolicy otgMetrics xeta targetTx trafficETA mr elapsed
        = (isTrafficRunning otgMetrics mr targetTx, [])
    ∧ trafficRunningPolicy otgMetrics xeta targetTx trafficETA mr elapsed
        = trafficRunningPolicy otgMetrics xeta targetTx trafficETA mr elapsed' := by
  have h : ¬ (0 < xeta) := not_lt.mpr hx
  constructor <;> simp [trafficRunningPolicy, h]

/-- C5 witness at `xeta = 0` and two distinct evaluation times. -/
theorem target_only_policy_ignores_time_witness :
    trafficRunningPolicy "port" 0 10 5 ⟨[], []⟩ 3
        = (isTrafficRunning "port" ⟨[], []⟩ 10, [])
    ∧ trafficRunningPolicy "port" 0 10 5 ⟨[], []⟩ 3
        = trafficRunningPolicy "port" 0 10 5 ⟨[], []⟩ 8 :=
  target_only_policy_ignores_time "port" 0 10 5 ⟨[], []⟩ 3 8 (le_refl 0)

end Otgen

namespace Otgen

/-- Rounding half-to-even never goes below the floor. -/
theorem floor_le_roundHalfEven (x : ℚ) : ⌊x⌋ ≤ roundHalfEven x := by
  rw [roundHalfEven]
  split_ifs <;> omega

/-- An integer is its own half-to-even rounding. -/
theorem roundHalfEven_intCast (n : ℤ) : roundHalfEven ((n : ℤ) : ℚ) = n := by
  norm_num [roundHalfEven, Int.floor_intCast]

theorem roundF32_zero : roundF32 0 = 0 := by
  simp [roundF32]

/-- Computation rule for `roundF32` on a positive rational, given its
binade: scale into [2^23, 2^24), round half to even, scale back. -/
theorem roundF32_eval (q : ℚ) (L : ℤ) (h0 : 0 < q)
    (h1 : (2:ℚ) ^ L ≤ q) (h2 : q < (2:ℚ) ^ (L + 1)) :
    roundF32 q = ((roundHalfEven (q * (2:ℚ) ^ (23 - L)) : ℤ) : ℚ) * (2:ℚ) ^ (L - 23) := by
  have hcast : ((2:ℕ):ℚ) = (2:ℚ) := by norm_num
  have hlog : Int.log 2 q = L := by
    have hle : L ≤ Int.log 2 q := by
      rw [← Int.zpow_le_iff_le_log one_lt_two h0, hcast]
      exact h1
    have hlt : Int.log 2 q < L + 1 := by
      rw [← Int.lt_zpow_iff_log_lt one_lt_two h0, hcast]
      exact h2
    omega
  have hq0 : q ≠ 0 := ne_of_gt h0
  have hneg : ¬ (q < 0) := not_lt.mpr (le_of_lt h0)
  rw [roundF32, if_neg hq0]
  simp only [abs_of_pos h0, hlog, if_neg hneg, one_mul]
  rw [neg_sub]

/-- `roundF32` preserves positivity: the scaled significand is at least
2^23, so the rounded value cannot collapse to zero. -/
theorem roundF32_pos (q : ℚ) (h : 0 < q) : 0 < roundF32 q := by
  have hq0 : q ≠ 0 := ne_of_gt h
  have hneg : ¬ (q < 0) := not_lt.mpr (le_of_lt h)
  rw [roundF32, if_neg hq0]
  simp only [abs_of_pos h, if_neg hneg, one_mul]
  set L := Int.log 2 q with hL
  have hcast : ((2:ℕ):ℚ) = (2:ℚ) := by norm_num
  have hlow : (2:ℚ) ^ L ≤ q := by
    have hz := Int.zpow_log_le_self (b := 2) one_lt_two h
    rwa [hcast] at hz
  have hpow_pos : (0:ℚ) < (2:ℚ) ^ (-(L - 23)) := zpow_pos (by norm_num) _
  have hscaled : (2:ℚ) ^ (23:ℤ) ≤ q * (2:ℚ) ^ (-(L - 23)) := by
    calc (2:ℚ) ^ (23:ℤ) = (2:ℚ) ^ L * (2:ℚ) ^ (-(L - 23)) := by
          rw [← zpow_add₀ (by norm_num : (2:ℚ) ≠ 0)]
          congr 1
          omega
      _ ≤ q * (2:ℚ) ^ (-(L - 23)) :=
          mul_le_mul_of_nonneg_right hlow (le_of_lt hpow_pos)
  have hfl : (2^23 : ℤ) ≤ ⌊q * (2:ℚ) ^ (-(L - 23))⌋ := by
    rw [Int.le_floor]
    refine le_trans (le_of_eq ?_) hscaled
    norm_num
  have hrd : (0:ℤ) < roundHalfEven (q * (2:ℚ) ^ (-(L - 23))) := by
    have hfr := floor_le_roundHalfEven (q * (2:ℚ) ^ (-(L - 23)))
    have h23 : (0:ℤ) < 2^23 := by norm_num
    omega
  have hq' : (0:ℚ) < (roundHalfEven (q * (2:ℚ) ^ (-(L - 23))) : ℚ) := by
    exact_mod_cast hrd
  exact mul_pos hq' (zpow_pos (by norm_num) _)

/-- 2^24 ns is exactly representable in `float32`. -/
theorem roundF32_pow24 : roundF32 (16777216 : ℚ) = 16777216 := by
  rw [roundF32_eval (16777216 : ℚ) 24 (by norm_num) (by norm_num) (by norm_num)]
  have harg : (16777216 : ℚ) * (2:ℚ) ^ (23 - (24:ℤ)) = ((8388608 : ℤ) : ℚ) := by
    norm_num
  rw [harg, roundHalfEven_intCast]
  norm_num

/-- 2^24 + 1 ns rounds DOWN to 2^24 in `float32` (a tie, broken to the
even significand): one past-deadline nanosecond can be invisible to the
float32 timeout comparison. -/
theorem roundF32_pow24_add_one : roundF32 (16777217 : ℚ) = 16777216 := by
  rw [roundF32_eval (16777217 : ℚ) 24 (by norm_num) (by norm_num) (by norm_num)]
  have hfl : ⌊(16777217 : ℚ) * (2:ℚ) ^ (23 - (24:ℤ))⌋ = 8388608 := by
    rw [Int.floor_eq_iff]
    norm_num
  rw [roundHalfEven, hfl]
  norm_num

/-- 2^24 + 2 ns is exactly representable in `float32`. -/
theorem roundF32_pow24_add_two : roundF32 (16777218 : ℚ) = 16777218 := by
  rw [roundF32_eval (16777218 : ℚ) 24 (by norm_num) (by norm_num) (by norm_num)]
  have harg : (16777218 : ℚ) * (2:ℚ) ^ (23 - (24:ℤ)) = ((8388609 : ℤ) : ℚ) := by
    norm_num
  rw [harg, roundHalfEven_intCast]
  norm_num

/-- 1 ns is exactly representable in `float32`. -/
theorem roundF32_one : roundF32 (1 : ℚ) = 1 := by
  rw [roundF32_eval (1 : ℚ) 0 (by norm_num) (by norm_num) (by norm_num)]
  have harg : (1 : ℚ) * (2:ℚ) ^ (23 - (0:ℤ)) = ((8388608 : ℤ) : ℚ) := by
    norm_num
  rw [harg, roundHalfEven_intCast]
  norm_num

/-- When the deadline has passed, the flow scan stops at the very first
record: it warns with that record's name and forces not-running, whatever
the record's transmit state. -/
theorem flowScanETA_timeout_cons (xeta : ℚ) (trafficETA elapsed : ℕ)
    (hd : roundF32 (roundF32 (trafficETA : ℚ) * xeta) < roundF32 (elapsed : ℚ)) (b : Bool)
    (fm : FlowMetric) (rest : List FlowMetric) :
    flowScanETA xeta trafficETA elapsed b (fm :: rest) = (false, [some fm.name]) := by
  simp [flowScanETA, hd]

/-- When the deadline has not passed, the flow scan degenerates to the
plain not-STOPPED scan of `isTrafficRunning` and warns never. -/
theorem flowScanETA_no_timeout (xeta : ℚ) (trafficETA elapsed : ℕ)
    (hd : ¬ (roundF32 (roundF32 (trafficETA : ℚ) * xeta) < roundF32 (elapsed : ℚ))) (l : List FlowMetric) :
    ∀ b : Bool, flowScanETA xeta trafficETA elapsed b l
      = (l.foldl
          (fun trafficRunning fm =>
            if trafficRunning = false ∧ fm.transmit ≠ FlowTransmit.stopped then true
            else trafficRunning) b, []) := by
  induction l with
  | nil => intro b; simp [flowScanETA]
  | cons fm rest ih => intro b; simp [flowScanETA, hd, ih]

/-- Past the deadline, `isTrafficRunningWithETA` reports not-running in
every mode and for every snapshot. -/
theorem withETA_false_of_timeout (otgMetrics : String) (xeta : ℚ)
    (mr : MetricsResponse) (targetTx trafficETA elapsed : ℕ)
    (hd : roundF32 (roundF32 (trafficETA : ℚ) * xeta) < roundF32 (elapsed : ℚ)) :
    (isTrafficRunningWithETA otgMetrics xeta mr targetTx trafficETA elapsed).1 = false := by
  rw [isTrafficRunningWithETA]
  by_cases hp : otgMetrics = "port"
  · simp [hp, hd]
  · by_cases hf : otgMetrics = "flow"
    · cases hl : mr.flowMetrics with
      | nil => simp [hp, hf, hl, flowScanETA]
      | cons fm rest => simp [hp, hf, hl, flowScanETA_timeout_cons _ _ _ hd]
    · simp [hp, hf]

end Otgen

namespace Otgen

/-- C10 counterexample: in flow mode, elapsed time exceeding the exact
product trafficETA × xeta does not trigger the forced stop: at ETA = 2^24
ns, xeta = 1, elapsed = 2^24 + 1 ns and one STARTED record, the exact
bound is exceeded but float32(2^24 + 1) rounds down to 2^24, so the scan
keeps running with no warning instead of returning (false, [first name]). -/
theorem flow_timeout_exact_deadline_counterexample :
    ((16777216 : ℕ) : ℚ) * 1 < ((16777217 : ℕ) : ℚ)
    ∧ isTrafficRunningWithETA "flow" 1 ⟨[], [⟨"f1", FlowTransmit.started⟩]⟩ 100
        16777216 16777217 = (true, []) := by
  refine ⟨by norm_num, ?_⟩
  norm_num [isTrafficRunningWithETA, flowScanETA, roundF32_pow24,
    roundF32_pow24_add_one]
  decide

/-- C10 amended: in flow mode, once the float32 timeout comparison
`float32(trafficETA)·xeta < float32(elapsed)` holds (the global elapsed
time alone decides it, not the record's metrics): with at least one
record the scan returns not-running and warns with the first record's
name, whatever that record's transmit state; with no records the timeout
branch is never reached and the scan returns the initial not-running
value with no warning. -/
theorem flow_timeout_first_record (xeta : ℚ) (mr : MetricsResponse)
    (targetTx trafficETA elapsed : ℕ) (hx : 0 < xeta)
    (hd : roundF32 (roundF32 (trafficETA : ℚ) * xeta) < roundF32 (elapsed : ℚ)) :
    (mr.flowMetrics = [] →
        isTrafficRunningWithETA "flow" xeta mr targetTx trafficETA elapsed = (false, []))
    ∧ (∀ (fm : FlowMetric) (rest : List FlowMetric), mr.flowMetrics = fm :: rest →
        isTrafficRunningWithETA "flow" xeta mr targetTx trafficETA elapsed
          = (false, [some fm.name])) := by
  constructor
  · intro hl
    rw [isTrafficRunningWithETA]
    simp [hl, flowScanETA]
  · intro fm rest hl
    rw [isTrafficRunningWithETA]
    simp [hl, flowScanETA_timeout_cons _ _ _ hd]

/-- C10 witness: one STARTED record named f1, ETA = 2^24 ns, xeta = 1,
elapsed = 2^24 + 2 ns: the float32 comparison holds and the scan stops at
the first record, warning with its name. -/
theorem flow_timeout_first_record_witness :
    isTrafficRunningWithETA "flow" 1 ⟨[], [⟨"f1", FlowTransmit.started⟩]⟩ 100
        16777216 16777218 = (false, [some "f1"]) :=
  (flow_timeout_first_record 1 ⟨[], [⟨"f1", FlowTransmit.started⟩]⟩ 100
    16777216 16777218 (by norm_num)
    (by push_cast
        rw [mul_one]
        simp only [roundF32_pow24, roundF32_pow24_add_two]
        norm_num)).2 ⟨"f1", FlowTransmit.started⟩ [] rfl

/-- C1 counterexample: with traffic ETA 0, xeta = 1 and any positive
elapsed time (here 1 ns), the target-or-timeout policy does NOT equal the
target-only condition: the port snapshot [FramesTx = 0] with target 100 is
far from the target, yet the policy reports not-running and a forced-stop
warning is emitted. -/
theorem zeroETA_no_timeout_counterexample :
    (isTrafficRunningWithETA "port" 1 ⟨[⟨0⟩], []⟩ 100 0 1).1 = false
    ∧ isTrafficRunning "port" ⟨[⟨0⟩], []⟩ 100 = true
    ∧ (isTrafficRunningWithETA "port" 1 ⟨[⟨0⟩], []⟩ 100 0 1).2 = [none] := by
  refine ⟨?_, ?_, ?_⟩ <;>
    norm_num [isTrafficRunningWithETA, isTrafficRunning, roundF32_zero,
      roundF32_one]

/-- C1 amended: with traffic ETA 0 and `xeta > 0` the timeout bound is 0
(exactly, float32 arithmetic included), so the forced stop fires as soon
as any time has elapsed: for every snapshot and every elapsed time > 0
the policy reports not-running regardless of the metric values, with the
forced-stop warning in port mode and, in flow mode, naming the first
record whenever the snapshot has one; only at elapsed time 0 does it
coincide with the target-only condition, and then no warning is emitted. -/
theorem zeroETA_timeout_fires_immediately (otgMetrics : String) (xeta : ℚ)
    (mr : MetricsResponse) (targetTx elapsed : ℕ) (hx : 0 < xeta) :
    (0 < elapsed →
        (isTrafficRunningWithETA otgMetrics xeta mr targetTx 0 elapsed).1 = false)
    ∧ (0 < elapsed → otgMetrics = "port" →
        (isTrafficRunningWithETA otgMetrics xeta mr targetTx 0 elapsed).2 = [none])
    ∧ (0 < elapsed → otgMetrics = "flow" →
        ∀ (fm : FlowMetric) (rest : List FlowMetric), mr.flowMetrics = fm :: rest →
          (isTrafficRunningWithETA otgMetrics xeta mr targetTx 0 elapsed).2
            = [some fm.name])
    ∧ (isTrafficRunningWithETA otgMetrics xeta mr targetTx 0 0).1
        = isTrafficRunning otgMetrics mr targetTx
    ∧ (isTrafficRunningWithETA otgMetrics xeta mr targetTx 0 0).2 = [] := by
  have hzero : roundF32 (roundF32 ((0 : ℕ) : ℚ) * xeta) = 0 := by
    rw [Nat.cast_zero, roundF32_zero, zero_mul, roundF32_zero]
  have hzero' : roundF32 (roundF32 (0 : ℚ) * xeta) = 0 := by
    rw [roundF32_zero, zero_mul, roundF32_zero]
  have hd : ∀ e : ℕ, 0 < e →
      roundF32 (roundF32 ((0 : ℕ) : ℚ) * xeta) < roundF32 ((e : ℕ) : ℚ) := by
    intro e he
    rw [hzero]
    exact roundF32_pos _ (by exact_mod_cast he)
  have hdn : 0 < elapsed →
      roundF32 (roundF32 (0 : ℚ) * xeta) < roundF32 ((elapsed : ℕ) : ℚ) := by
    intro he
    rw [hzero']
    exact roundF32_pos _ (by exact_mod_cast he)
  have hd0 : ¬ (roundF32 (roundF32 ((0 : ℕ) : ℚ) * xeta) < roundF32 ((0 : ℕ) : ℚ)) := by
    rw [hzero, Nat.cast_zero, roundF32_zero]
    norm_num
  have hd0n : ¬ (roundF32 (roundF32 (0 : ℚ) * xeta) < roundF32 (0 : ℚ)) := by
    rw [hzero', roundF32_zero]
    norm_num
  refine ⟨?_, ?_, ?_, ?_, ?_⟩
  · intro he
    exact withETA_false_of_timeout _ _ _ _ _ _ (hd elapsed he)
  · intro he hp
    subst hp
    rw [isTrafficRunningWithETA]
    simp [hdn he]
  · intro he hf fm rest hl
    subst hf
    rw [isTrafficRunningWithETA]
    simp [hl, flowScanETA_timeout_cons _ _ _ (hd elapsed he)]
  · rw [isTrafficRunningWithETA, isTrafficRunning]
    by_cases hp : otgMetrics = "port"
    · simp [hp, hd0n]
    · by_cases hf : otgMetrics = "flow"
      · simp [hp, hf, flowScanETA_no_timeout _ _ _ hd0]
      · simp [hp, hf]
  · rw [isTrafficRunningWithETA]
    by_cases hp : otgMetrics = "port"
    · simp [hp, hd0n]
    · by_cases hf : otgMetrics = "flow"
      · simp [hp, hf, flowScanETA_no_timeout _ _ _ hd0]
      · simp [hp, hf]

/-- C1 amended witness: ETA 0, xeta = 1, elapsed 1 ns, a port snapshot
below target: the forced stop already applies, with its warning. -/
theorem zeroETA_timeout_fires_immediately_witness :
    (isTrafficRunningWithETA "port" 1 ⟨[⟨0⟩], []⟩ 100 0 1).1 = false
    ∧ (isTrafficRunningWithETA "port" 1 ⟨[⟨0⟩], []⟩ 100 0 1).2 = [none] := by
  have h := zeroETA_timeout_fires_immediately "port" 1 ⟨[⟨0⟩], []⟩ 100 1
    (by norm_num)
  exact ⟨h.1 (by norm_num), h.2.1 (by norm_num) rfl⟩

end Otgen

namespace Otgen

theorem firstIdx_cons_self (e : Event) (l : List Event) :
    firstIdx e (e :: l) = some 0 := by
  simp [firstIdx]

theorem firstIdx_cons_ne (e x : Event) (l : List Event) (h : ¬ x = e) :
    firstIdx e (x :: l) = (firstIdx e l).map (· + 1) := by
  simp [firstIdx, h]

theorem countE_append (e : Event) (l1 l2 : List Event) :
    countE e (l1 ++ l2) = countE e l1 + countE e l2 := by
  induction l1 with
  | nil => simp [countE]
  | cons x rest ih => simp [countE, ih, Nat.add_assoc]

theorem countE_eq_zero (e : Event) (l : List Event) (h : ∀ x ∈ l, ¬ x = e) :
    countE e l = 0 := by
  induction l with
  | nil => simp [countE]
  | cons x rest ih =>
      rw [countE, if_neg (h x (List.mem_cons_self x rest)),
        ih (fun y hy => h y (List.mem_cons_of_mem x hy))]

/-- Every event the poll loop emits is a metrics fetch. -/
theorem pollLoop_events_getMetrics
    (policy : MetricsResponse → ℕ → Bool × List (Option String)) :
    ∀ (polls : List (MetricsResponse × ℕ)) (mr : MetricsResponse) (e : ℕ),
      ∀ ev ∈ (pollLoop policy mr e polls).1, ev = Event.getMetrics := by
  intro polls
  induction polls with
  | nil =>
      intro mr e ev hev
      by_cases h : (policy mr e).1 <;> simp [pollLoop, h] at hev
  | cons p rest ih =>
      intro mr e ev hev
      by_cases h : (policy mr e).1
      · simp only [pollLoop, if_pos h, List.mem_cons] at hev
        rcases hev with hev | hev
        · exact hev
        · exact ih p.1 p.2 ev hev
      · simp [pollLoop, h] at hev

/-- C4 counterexample: in a concrete run the targets-and-ETA computation
does NOT occur before the START transmit state is sent: it occurs right
after it (trace positions 1 and 2). -/
theorem targets_computed_after_start_counterexample :
    occursBefore Event.computeTargets Event.startTransmit
      (runTraffic "port" 0 [] ⟨[], []⟩ 0 []) = false
    ∧ occursBefore Event.startTransmit Event.computeTargets
      (runTraffic "port" 0 [] ⟨[], []⟩ 0 []) = true := by
  constructor <;>
    norm_num [runTraffic, pollLoop, trafficRunningPolicy, isTrafficRunning,
      calculateTrafficTargets, calcLoop, occursBefore, firstIdx] <;>
    decide

/-- C4 amended: in every run trace the target count and traffic ETA are
computed exactly once, immediately AFTER the START transmit state is sent
(position 2, START at position 1) and before the first metrics fetch
(position 3); they are never recomputed later in the run. -/
theorem targets_computed_once_after_start (otgMetrics : String) (xeta : ℚ)
    (config : List Flow) (mr0 : MetricsResponse) (t0 : ℕ)
    (polls : List (MetricsResponse × ℕ)) :
    countE Event.computeTargets (runTraffic otgMetrics xeta config mr0 t0 polls) = 1
    ∧ firstIdx Event.startTransmit (runTraffic otgMetrics xeta config mr0 t0 polls)
        = some 1
    ∧ firstIdx Event.computeTargets (runTraffic otgMetrics xeta config mr0 t0 polls)
        = some 2
    ∧ firstIdx Event.getMetrics (runTraffic otgMetrics xeta config mr0 t0 polls)
        = some 3 := by
  rw [runTraffic]
  refine ⟨?_, ?_, ?_, ?_⟩
  · simp only [countE, reduceCtorEq, if_neg, if_pos, reduceIte, countE_append]
    have h1 : countE Event.computeTargets
        (pollLoop (trafficRunningPolicy otgMetrics xeta
          (calculateTrafficTargets config).1 (calculateTrafficTargets config).2)
          mr0 t0 polls).1 = 0 := by
      refine countE_eq_zero _ _ ?_
      intro x hx
      rw [pollLoop_events_getMetrics _ polls mr0 t0 x hx]
      decide
    rw [h1]
    split
    · rw [show countE Event.computeTargets [Event.stopTransmit] = 0 from by decide]
    · rw [show countE Event.computeTargets ([] : List Event) = 0 from by decide]
  · rw [firstIdx_cons_ne _ _ _ (by decide), firstIdx_cons_self]
    rfl
  · rw [firstIdx_cons_ne _ _ _ (by decide), firstIdx_cons_ne _ _ _ (by decide),
      firstIdx_cons_self]
    rfl
  · rw [firstIdx_cons_ne _ _ _ (by decide), firstIdx_cons_ne _ _ _ (by decide),
      firstIdx_cons_ne _ _ _ (by decide), firstIdx_cons_self]
    rfl

/-- C8: any metrics mode other than "port" and "flow" makes the run
command terminate fatally at startup: no configuration read and no remote
API interaction (apply, start, fetch, stop) ever happens. -/
theorem unsupported_mode_fatal (otgMetrics : String) (intervalOk cfgOk : Bool)
    (xeta : ℚ) (config : List Flow) (mr0 : MetricsResponse) (t0 : ℕ)
    (polls : List (MetricsResponse × ℕ))
    (hp : otgMetrics ≠ "port") (hf : otgMetrics ≠ "flow") :
    runCmdRun otgMetrics intervalOk cfgOk xeta config mr0 t0 polls = ([], true) := by
  rw [runCmdRun, if_neg]
  intro h
  rcases h with h | h
  · exact hp h
  · exact hf h

/-- C8 witness: the mode "bogus" with an otherwise healthy run setup. -/
theorem unsupported_mode_fatal_witness :
    runCmdRun "bogus" true true 0 [] ⟨[], []⟩ 0 [] = ([], true) :=
  unsupported_mode_fatal "bogus" true true 0 [] ⟨[], []⟩ 0 []
    (by decide) (by decide)

end Otgen
